import Mathlib

/-!
Verification of the SchoolSync school-management service.

The development shallowly embeds the data model (shared schema), the
persistence gateway (`server/storage.ts`, class `DatabaseStorage`) and the
HTTP request handlers (`server/routes.ts`) as pure Lean functions over an
explicit relational store.  SQL semantics of the underlying store are made
explicit: an UPDATE touches every row matching its WHERE clause and touches
no other row; an UPDATE or DELETE whose WHERE clause matches no row affects
zero rows and raises no error; each statement commits on its own because the
source wraps none of them in a transaction.
-/

namespace SchoolSync

/-- `role` column of `users`: enum ["admin", "teacher", "student"]. -/
inductive Role where
  | admin
  | teacher
  | student
deriving DecidableEq, Repr

/-- `status` column of `attendance`: enum ["present", "absent", "late"]. -/
inductive AttStatus where
  | present
  | absent
  | late
deriving DecidableEq, Repr

/-- `promotionStatus` column of `studentAcademics`:
enum ["pending", "promoted", "retained"]. -/
inductive PromotionStatus where
  | pending
  | promoted
  | retained
deriving DecidableEq, Repr

/-- A row of the `users` table (shared schema, `pgTable "users"`).
Nullable columns are `Option`; `id` is the serial primary key. -/
structure User where
  id : Nat
  username : String
  password : String
  role : Role
  fullName : String
  email : String
  profilePicture : Option String
  currentClassId : Option Nat
  academicYear : Option Int
deriving DecidableEq, Repr

/-- A row of the `studentAcademics` table (`pgTable "student_academics"`). -/
structure StudentAcademics where
  id : Nat
  studentId : Nat
  classLevelId : Nat
  academicYear : Int
  overallGrade : Option String
  promotionStatus : Option PromotionStatus
  remarks : Option String
deriving DecidableEq, Repr

/-- A row of the `attendance` table.  `date` is the timestamp column,
modelled as an integer instant. -/
structure Attendance where
  id : Nat
  userId : Nat
  subjectId : Nat
  classLevelId : Nat
  date : Int
  status : AttStatus
  markedBy : Nat
  notes : Option String
  notificationSent : Bool
deriving DecidableEq, Repr

/-- A row of the `examResults` table. -/
structure ExamResult where
  id : Nat
  studentId : Nat
  subjectId : Nat
  academicYear : Int
  term : Nat
  marks : Int
  grade : String
  examDate : Int
deriving DecidableEq, Repr

/-- The relational store the gateway operates on: the tables the claims
touch, plus the serial counters Postgres uses for freshly inserted ids. -/
structure DB where
  users : List User
  studentAcademics : List StudentAcademics
  attendance : List Attendance
  examResults : List ExamResult
  nextAcademicsId : Nat
  nextAttendanceId : Nat
deriving DecidableEq, Repr

/-- `DatabaseStorage.getUser`: `select from users where id = id`, first row
or undefined. -/
def getUser (db : DB) (id : Nat) : Option User :=
  db.users.find? (fun u => u.id == id)

/-- The update payload of `DatabaseStorage.updateUser`.  The TypeScript
parameter type omits `id` and `password` entirely, so the payload has no
field for either; every other column may be present or absent.  A present
entry for a nullable column carries the full nullable value. -/
structure UserUpdate where
  username : Option String := none
  role : Option Role := none
  fullName : Option String := none
  email : Option String := none
  profilePicture : Option (Option String) := none
  currentClassId : Option (Option Nat) := none
  academicYear : Option (Option Int) := none
deriving DecidableEq, Repr

/-- Whether an update payload carries no column at all (drizzle rejects an
empty `set` clause, so the gateway call errors on such a payload). -/
def UserUpdate.isEmpty (d : UserUpdate) : Bool :=
  d.username == none && d.role == none && d.fullName == none &&
  d.email == none && d.profilePicture == none &&
  d.currentClassId == none && d.academicYear == none

/-- SQL `set` semantics on one row: present entries overwrite the column,
absent entries leave it alone.  `id` and `password` have no entry, so they
are never written. -/
def applyUserUpdate (d : UserUpdate) (u : User) : User :=
  { u with
    username := d.username.getD u.username
    role := d.role.getD u.role
    fullName := d.fullName.getD u.fullName
    email := d.email.getD u.email
    profilePicture := d.profilePicture.getD u.profilePicture
    currentClassId := d.currentClassId.getD u.currentClassId
    academicYear := d.academicYear.getD u.academicYear }

/-- `DatabaseStorage.updateUser`:
`update users set data where id = id returning`.  Every row matching the
WHERE clause is rewritten; the first returned row (or undefined when none
matched) is handed back.  An empty payload is an error (drizzle refuses an
empty `set`), modelled as `none` with the store untouched. -/
def updateUser (db : DB) (id : Nat) (data : UserUpdate) :
    Option (Option User) × DB :=
  if data.isEmpty then (none, db)
  else
    let users := db.users.map (fun u => if u.id == id then applyUserUpdate data u else u)
    let db := { db with users := users }
    (some (getUser db id), db)

/-- `DatabaseStorage.deleteUser`: `delete from users where id = id`.
A WHERE clause matching no row deletes nothing and raises no error. -/
def deleteUser (db : DB) (id : Nat) : DB :=
  { db with users := db.users.filter (fun u => u.id != id) }

/-- `DatabaseStorage.getAttendanceByUser`: all attendance rows of a user. -/
def getAttendanceByUser (db : DB) (userId : Nat) : List Attendance :=
  db.attendance.filter (fun a => a.userId == userId)

/-- `DatabaseStorage.getAttendanceByClass`: attendance rows for a class on
a date. -/
def getAttendanceByClass (db : DB) (classId : Nat) (date : Int) : List Attendance :=
  db.attendance.filter (fun a => a.classLevelId == classId && a.date == date)

/-- The insert payload of `DatabaseStorage.createAttendance` after
validation: every `insertAttendanceSchema` column (`id` and
`notificationSent` are omitted by the schema). -/
structure AttendanceInsert where
  userId : Nat
  subjectId : Nat
  classLevelId : Nat
  date : Int
  status : AttStatus
  markedBy : Nat
  notes : Option String
deriving DecidableEq, Repr

/-- `DatabaseStorage.createAttendance`: insert one row; the serial assigns
the id and `notificationSent` takes its column default `false`. -/
def createAttendance (db : DB) (a : AttendanceInsert) : Attendance × DB :=
  let row : Attendance :=
    { id := db.nextAttendanceId
      userId := a.userId
      subjectId := a.subjectId
      classLevelId := a.classLevelId
      date := a.date
      status := a.status
      markedBy := a.markedBy
      notes := a.notes
      notificationSent := false }
  (row, { db with
            attendance := db.attendance ++ [row]
            nextAttendanceId := db.nextAttendanceId + 1 })

/-- First write of `DatabaseStorage.promoteStudent`:
`update users set currentClassId = newClassId, academicYear where id = studentId`. -/
def promoteFirstWrite (db : DB) (studentId newClassId : Nat) (academicYear : Int) : DB :=
  { db with
      users := db.users.map (fun u =>
        if u.id == studentId then
          { u with currentClassId := some newClassId, academicYear := some academicYear }
        else u) }

/-- Second write of `DatabaseStorage.promoteStudent`: insert one
`studentAcademics` row with `promotionStatus = "pending"`. -/
def promoteSecondWrite (db : DB) (studentId newClassId : Nat) (academicYear : Int) : DB :=
  { db with
      studentAcademics := db.studentAcademics ++
        [{ id := db.nextAcademicsId
           studentId := studentId
           classLevelId := newClassId
           academicYear := academicYear
           overallGrade := none
           promotionStatus := some PromotionStatus.pending
           remarks := none }]
      nextAcademicsId := db.nextAcademicsId + 1 }

/-- `DatabaseStorage.promoteStudent` on the failure-free path: the two
awaited statements run in sequence. -/
def promoteStudent (db : DB) (studentId newClassId : Nat) (academicYear : Int) : DB :=
  promoteSecondWrite (promoteFirstWrite db studentId newClassId academicYear)
    studentId newClassId academicYear

/-- `DatabaseStorage.promoteStudent` with a fault injected between the two
writes (the scenario of spec section 8).  The source wraps the two awaited
statements in no transaction, so each commits on its own: when the second
statement fails, the promise rejects (`none`) but the store already holds
the committed first write — nothing rolls it back. -/
def promoteStudentFaulty (db : DB) (studentId newClassId : Nat)
    (academicYear : Int) (secondWriteFails : Bool) : Option DB × DB :=
  let db1 := promoteFirstWrite db studentId newClassId academicYear
  if secondWriteFails then (none, db1)
  else
    let db2 := promoteSecondWrite db1 studentId newClassId academicYear
    (some db2, db2)

/-! ## Request handlers (`server/routes.ts`) -/

/-- `requireAdmin` middleware: 401 when unauthenticated, 403 when the
caller is not an admin, otherwise the handler runs with the caller. -/
def requireAdmin (caller : Option User) : Except Nat User :=
  match caller with
  | none => Except.error 401
  | some u => if u.role != Role.admin then Except.error 403 else Except.ok u

/-- `requireTeacher` middleware: 401 when unauthenticated, 403 unless the
caller is a teacher or an admin. -/
def requireTeacher (caller : Option User) : Except Nat User :=
  match caller with
  | none => Except.error 401
  | some u =>
    if u.role != Role.teacher && u.role != Role.admin then Except.error 403
    else Except.ok u

/-- String-to-enum reading of a role value, as the zod role enum accepts it. -/
def parseRole : String → Option Role
  | "admin" => some Role.admin
  | "teacher" => some Role.teacher
  | "student" => some Role.student
  | _ => none

/-- The JSON body of a `PATCH /api/users/:id` request, as far as the
route's `updateSchema` looks at it: the four declared keys plus a possible
`password` key (any other unknown key behaves like `password`).  `none`
means the key is absent; JSON cannot carry `undefined`, so a present key
carries a value. -/
structure PatchBody where
  fullName : Option String := none
  email : Option String := none
  profilePicture : Option String := none
  role : Option String := none
  password : Option String := none
deriving DecidableEq, Repr

/-- `updateSchema.safeParse` of the PATCH route.  `fullName` must be
non-empty when present, `email` must satisfy the zod email format
(`emailOk` stands for that library regex; no claim depends on its exact
form), `profilePicture` is any string, and `role` is the enum for an admin
caller but `z.undefined()` — hence rejected whenever the key is present —
for everyone else.  zod strips keys outside the schema, so `password`
never reaches the output payload. -/
def patchParse (isAdmin : Bool) (emailOk : String → Bool) (b : PatchBody) :
    Option UserUpdate :=
  if b.fullName.any (fun s => s.length == 0) then none
  else if b.email.any (fun s => !emailOk s) then none
  else if !isAdmin && b.role.isSome then none
  else if isAdmin && b.role.isSome && (b.role.bind parseRole).isNone then none
  else
    some { fullName := b.fullName
           email := b.email
           profilePicture := b.profilePicture.map some
           role := b.role.bind parseRole }

/-- `PATCH /api/users/:id`: authentication check, self-or-admin check,
schema validation, then `storage.updateUser` inside try/catch.  The
gateway only throws on an empty update payload (mapped to 404 by the
catch); an absent target id throws nothing — the update matches zero rows
and `res.json(undefined)` answers 200. -/
def patchUserRoute (emailOk : String → Bool) (db : DB) (caller : Option User)
    (id : Nat) (body : PatchBody) : Nat × DB :=
  match caller with
  | none => (401, db)
  | some c =>
    if c.role != Role.admin && id != c.id then (403, db)
    else
      match patchParse (c.role == Role.admin) emailOk body with
      | none => (400, db)
      | some data =>
        match updateUser db id data with
        | (none, db) => (404, db)
        | (some _, db) => (200, db)

/-- `DELETE /api/users/:id`: `requireAdmin`, then `storage.deleteUser`
inside try/catch.  The SQL delete raises no error for an absent id, so the
catch never fires and the route answers 200. -/
def deleteUserRoute (db : DB) (caller : Option User) (id : Nat) : Nat × DB :=
  match requireAdmin caller with
  | Except.error code => (code, db)
  | Except.ok _ => (200, deleteUser db id)

/-- `GET /api/attendance`: a student gets their own rows; a teacher or
admin gets rows by `classId` and `date` query parameters, or `[]` when
either parameter is missing. -/
def getAttendanceRoute (db : DB) (caller : Option User) (classId : Option Nat)
    (date : Option Int) : Nat × List Attendance :=
  match caller with
  | none => (401, [])
  | some u =>
    if u.role == Role.student then (200, getAttendanceByUser db u.id)
    else
      match classId, date with
      | some c, some d => (200, getAttendanceByClass db c d)
      | _, _ => (200, [])

/-- The JSON body of a `POST /api/attendance` request, already carrying the
column types `insertAttendanceSchema` checks; `markedBy` is whatever the
client chose to send, if anything. -/
structure AttendanceBody where
  userId : Nat
  subjectId : Nat
  classLevelId : Nat
  date : Int
  status : AttStatus
  markedBy : Option Nat := none
  notes : Option String := none
deriving DecidableEq, Repr

/-- `POST /api/attendance`: `requireTeacher`, then
`insertAttendanceSchema.safeParse` of the body spread with
`markedBy: req.user.id` — the spread lists the body first, so the caller id
overwrites any client-sent `markedBy` — then `storage.createAttendance`,
answered 201 with the created row. -/
def postAttendanceRoute (db : DB) (caller : Option User) (body : AttendanceBody) :
    Nat × Option Attendance × DB :=
  match requireTeacher caller with
  | Except.error code => (code, none, db)
  | Except.ok c =>
    let payload : AttendanceInsert :=
      { userId := body.userId
        subjectId := body.subjectId
        classLevelId := body.classLevelId
        date := body.date
        status := body.status
        markedBy := c.id
        notes := body.notes }
    let (row, db) := createAttendance db payload
    (201, some row, db)

/-- `POST /api/students/:id/promote` on the failure-free path:
`requireAdmin`, then `storage.promoteStudent`, answered 200. -/
def promoteRoute (db : DB) (caller : Option User) (studentId newClassId : Nat)
    (academicYear : Int) : Nat × DB :=
  match requireAdmin caller with
  | Except.error code => (code, db)
  | Except.ok _ => (200, promoteStudent db studentId newClassId academicYear)

/-! ## Attendance statistics (client `AttendanceStats` component) -/

/-- One month entry of the `/api/attendance/monthly` payload, the `stats`
fields the component reduces over. -/
structure MonthStats where
  presentDays : Nat
  absentDays : Nat
  lateDays : Nat
deriving DecidableEq, Repr

/-- `totalDays`: reduce summing present, absent and late days. -/
def totalDays (ms : List MonthStats) : Nat :=
  ms.foldl (fun acc m => acc + m.presentDays + m.absentDays + m.lateDays) 0

/-- `totalPresent`: reduce summing present days. -/
def totalPresent (ms : List MonthStats) : Nat :=
  ms.foldl (fun acc m => acc + m.presentDays) 0

/-- `overallAttendance`: `totalDays ? (totalPresent / totalDays) * 100 : 0`
— zero is falsy in JavaScript, so a zero denominator yields 0.  The
arithmetic is exact here (rationals); the source's floating point agrees on
every value the claims name. -/
def overallAttendance (ms : List MonthStats) : ℚ :=
  if totalDays ms = 0 then 0
  else ((totalPresent ms : ℚ) / (totalDays ms : ℚ)) * 100

/-! ## Concrete sample store for witnesses and counterexamples -/

/-- A concrete admin user. -/
def adminUser : User :=
  { id := 1, username := "headmaster", password := "hash1", role := Role.admin
    fullName := "Head Master", email := "head@school.example"
    profilePicture := none, currentClassId := none, academicYear := none }

/-- A concrete student user, currently placed in class 10, year 2024. -/
def studentUser : User :=
  { id := 2, username := "pupil", password := "hash2", role := Role.student
    fullName := "Pupil Two", email := "pupil@school.example"
    profilePicture := none, currentClassId := some 10, academicYear := some 2024 }

/-- A concrete teacher user. -/
def teacherUser : User :=
  { id := 3, username := "teach", password := "hash3", role := Role.teacher
    fullName := "Teacher Three", email := "teach@school.example"
    profilePicture := none, currentClassId := none, academicYear := none }

/-- A concrete store holding the three users and no other rows. -/
def sampleDB : DB :=
  { users := [adminUser, studentUser, teacherUser]
    studentAcademics := [], attendance := [], examResults := []
    nextAcademicsId := 1, nextAttendanceId := 1 }

/-! ## Helper lemmas -/

/-- An update payload rewrites neither `id` nor `password` of a row: the
payload type has no field for either column. -/
theorem applyUserUpdate_id_password (d : UserUpdate) (u : User) :
    (applyUserUpdate d u).id = u.id ∧ (applyUserUpdate d u).password = u.password :=
  ⟨rfl, rfl⟩

/-- Rewriting the rows matched by an update leaves every row's
(id, password) pair as it was. -/
theorem map_update_id_password (l : List User) (id : Nat) (data : UserUpdate) :
    ((l.map fun u => if u.id == id then applyUserUpdate data u else u).map
        fun u => (u.id, u.password)) =
      l.map fun u => (u.id, u.password) := by
  induction l with
  | nil => rfl
  | cons u l ih =>
    simp only [List.map_cons, ih, List.cons.injEq, and_true]
    cases h : (u.id == id) <;> simp [applyUserUpdate]

/-- Rewriting the rows matched by an update whose payload does not name
`role` leaves every row's (id, role) pair as it was. -/
theorem map_update_id_role (l : List User) (id : Nat) (data : UserUpdate)
    (hrole : data.role = none) :
    ((l.map fun u => if u.id == id then applyUserUpdate data u else u).map
        fun u => (u.id, u.role)) =
      l.map fun u => (u.id, u.role) := by
  induction l with
  | nil => rfl
  | cons u l ih =>
    simp only [List.map_cons, ih, List.cons.injEq, and_true]
    cases h : (u.id == id) <;> simp [applyUserUpdate, hrole]

/-- Looking up an id after rewriting exactly the rows of that id with an
id-preserving function yields the original lookup with the function
applied. -/
theorem find_map_ite (l : List User) (sid : Nat) (f : User → User)
    (hf : ∀ u, (f u).id = u.id) :
    ((l.map fun u => if u.id == sid then f u else u).find? fun u => u.id == sid) =
      (l.find? fun u => u.id == sid).map f := by
  induction l with
  | nil => rfl
  | cons u l ih =>
    by_cases h : u.id = sid
    · have hb : (u.id == sid) = true := by simp [h]
      have h2 : ((f u).id == sid) = true := by rw [hf u]; exact hb
      simp only [List.map_cons, List.find?_cons, hb, h2, if_true, Option.map_some']
    · have hb : (u.id == sid) = false := by simp [h]
      simp only [List.map_cons, List.find?_cons, hb, Bool.false_eq_true, if_false, ih]

/-! ## The claims -/

/-- C4.  The attendance percentage the client dashboard computes equals
presentDays / (presentDays + absentDays + lateDays) × 100, is 0 when the
denominator is 0, is 90 for 18 present / 2 absent / 0 late, and is 0 for
all-zero days. -/
theorem attendance_percentage_correct :
    (∀ p a l : Nat, overallAttendance [⟨p, a, l⟩] =
      if p + a + l = 0 then 0 else ((p : ℚ) / ((p : ℚ) + a + l)) * 100) ∧
    overallAttendance [⟨18, 2, 0⟩] = 90 ∧
    overallAttendance [⟨0, 0, 0⟩] = 0 := by
  refine ⟨fun p a l => ?_, by norm_num [overallAttendance, totalDays, totalPresent], by
    norm_num [overallAttendance, totalDays, totalPresent]⟩
  simp only [overallAttendance, totalDays, totalPresent, List.foldl_cons, List.foldl_nil,
    Nat.zero_add]
  split <;> push_cast <;> ring_nf

/-- C5.  A student calling `DELETE /api/users/:id` is answered 403 by the
`requireAdmin` middleware for every target id, and the store is
untouched. -/
theorem student_delete_forbidden (db : DB) (caller : User) (id : Nat)
    (h : caller.role = Role.student) :
    deleteUserRoute db (some caller) id = (403, db) := by
  simp [deleteUserRoute, requireAdmin, h]

/-- Witness for C5 at the concrete student and the admin's id. -/
theorem student_delete_forbidden_witness :
    studentUser.role = Role.student ∧
    deleteUserRoute sampleDB (some studentUser) 1 = (403, sampleDB) :=
  ⟨rfl, student_delete_forbidden sampleDB studentUser 1 rfl⟩

/-- C8.  `deleteUser` touches only the `users` table: the `attendance` and
`examResults` tables — in particular every row referencing the deleted id
via userId, markedBy or studentId — are exactly as before, for every id. -/
theorem delete_user_no_cascade (db : DB) (id : Nat) :
    (deleteUser db id).attendance = db.attendance ∧
    (deleteUser db id).examResults = db.examResults :=
  ⟨rfl, rfl⟩

/-- C9.  A teacher or admin calling `GET /api/attendance` without the
`classId` or the `date` query parameter is answered 200 with `[]`. -/
theorem attendance_missing_params_empty (db : DB) (caller : User)
    (classId : Option Nat) (date : Option Int)
    (hrole : caller.role = Role.teacher ∨ caller.role = Role.admin)
    (hmiss : classId = none ∨ date = none) :
    getAttendanceRoute db (some caller) classId date = (200, []) := by
  have hns : (caller.role == Role.student) = false := by
    rcases hrole with h | h <;> simp [h]
  rcases hmiss with h | h
  · subst h; cases date <;> simp [getAttendanceRoute, hns]
  · subst h; cases classId <;> simp [getAttendanceRoute, hns]

/-- Witness for C9: a teacher with both parameters missing. -/
theorem attendance_missing_params_empty_witness :
    (teacherUser.role = Role.teacher ∨ teacherUser.role = Role.admin) ∧
    getAttendanceRoute sampleDB (some teacherUser) none none = (200, []) :=
  ⟨Or.inl rfl,
    attendance_missing_params_empty sampleDB teacherUser none none (Or.inl rfl)
      (Or.inl rfl)⟩

/-- C7.  For a teacher or admin calling `POST /api/attendance`, the created
row's `markedBy` is the caller's id, whatever `markedBy` the body
carried. -/
theorem attendance_marked_by_caller (db : DB) (caller : User) (body : AttendanceBody)
    (h : caller.role = Role.teacher ∨ caller.role = Role.admin) :
    ∃ row db2,
      postAttendanceRoute db (some caller) body = (201, some row, db2) ∧
      row.markedBy = caller.id := by
  have hok : requireTeacher (some caller) = Except.ok caller := by
    rcases h with h | h <;> simp [requireTeacher, h]
  unfold postAttendanceRoute
  rw [hok]
  exact ⟨_, _, rfl, rfl⟩

/-- A request body that tries to spoof `markedBy`. -/
def spoofBody : AttendanceBody :=
  { userId := 2, subjectId := 5, classLevelId := 10, date := 20240115
    status := AttStatus.present, markedBy := some 999, notes := none }

/-- Witness for C7: the teacher posts a body claiming `markedBy = 999`;
the stored row carries the teacher's id. -/
theorem attendance_marked_by_caller_witness :
    (teacherUser.role = Role.teacher ∨ teacherUser.role = Role.admin) ∧
    ∃ row db2,
      postAttendanceRoute sampleDB (some teacherUser) spoofBody = (201, some row, db2) ∧
      row.markedBy = teacherUser.id :=
  ⟨Or.inl rfl,
    attendance_marked_by_caller sampleDB teacherUser spoofBody (Or.inl rfl)⟩

/-- C10.  No `PATCH /api/users/:id` request can change any stored password:
for every caller, target and body, every user keeps their (id, password)
pair — the update schema has no password key (zod strips unknown keys) and
the gateway payload type omits the column. -/
theorem patch_never_changes_password (emailOk : String → Bool) (db : DB)
    (caller : Option User) (id : Nat) (body : PatchBody) :
    ((patchUserRoute emailOk db caller id body).2).users.map
        (fun u => (u.id, u.password)) =
      db.users.map fun u => (u.id, u.password) := by
  cases caller with
  | none => rfl
  | some c =>
    simp only [patchUserRoute]
    split
    · rfl
    · cases hp : patchParse (c.role == Role.admin) emailOk body with
      | none => rfl
      | some data =>
        simp only [updateUser]
        by_cases he : data.isEmpty = true
        · simp [he]
        · simp only [he, Bool.false_eq_true, if_false]
          exact map_update_id_password db.users id data

/-- A non-admin request whose body names `role` fails `z.undefined()`,
whatever the earlier checks say. -/
theorem patchParse_nonadmin_role_some (emailOk : String → Bool) (b : PatchBody)
    (hsome : b.role.isSome = true) :
    patchParse false emailOk b = none := by
  unfold patchParse
  split_ifs <;> simp_all

/-- A successful parse of a body without a `role` key yields a payload
without a `role` entry. -/
theorem patchParse_role_none (isAdmin : Bool) (emailOk : String → Bool)
    (b : PatchBody) (hb : b.role = none) (data : UserUpdate)
    (hp : patchParse isAdmin emailOk b = some data) : data.role = none := by
  unfold patchParse at hp
  split_ifs at hp
  all_goals cases hp
  all_goals simp [hb]

/-- C6.  A non-admin patching their own profile cannot change any stored
role: a body naming `role` is answered 400, and whatever the body, every
user keeps their (id, role) pair. -/
theorem non_admin_cannot_change_role (emailOk : String → Bool) (db : DB)
    (caller : User) (body : PatchBody) (h : caller.role ≠ Role.admin) :
    (body.role.isSome = true →
      (patchUserRoute emailOk db (some caller) caller.id body).1 = 400) ∧
    ((patchUserRoute emailOk db (some caller) caller.id body).2).users.map
        (fun u => (u.id, u.role)) =
      db.users.map fun u => (u.id, u.role) := by
  have hadm : (caller.role == Role.admin) = false := by
    simp [h]
  have hne : (caller.role != Role.admin && caller.id != caller.id) = false := by
    simp
  constructor
  · intro hsome
    have hp : patchParse (caller.role == Role.admin) emailOk body = none := by
      rw [hadm]
      exact patchParse_nonadmin_role_some emailOk body hsome
    simp [patchUserRoute, hne, hp]
  · cases hp : patchParse (caller.role == Role.admin) emailOk body with
    | none => simp [patchUserRoute, hne, hp]
    | some data =>
      have hdr : data.role = none := by
        cases hb : body.role with
        | none =>
          rw [hadm] at hp
          exact patchParse_role_none false emailOk body hb data hp
        | some s =>
          rw [hadm] at hp
          rw [patchParse_nonadmin_role_some emailOk body (by simp [hb])] at hp
          cases hp
      simp only [patchUserRoute, hne, Bool.false_eq_true, if_false, hp]
      simp only [updateUser]
      by_cases he : data.isEmpty = true
      · simp [he]
      · simp only [he, Bool.false_eq_true, if_false]
        exact map_update_id_role db.users caller.id data hdr

/-- A body under which a student tries to set their own role to admin. -/
def roleEscalationBody : PatchBody :=
  { fullName := none, email := none, profilePicture := none
    role := some "admin", password := none }

/-- Witness for C6: the student patching their own profile with
`role: "admin"` is answered 400 and every role is as before. -/
theorem non_admin_cannot_change_role_witness :
    studentUser.role ≠ Role.admin ∧
    ((roleEscalationBody.role.isSome = true →
      (patchUserRoute (fun _ => true) sampleDB (some studentUser) studentUser.id
        roleEscalationBody).1 = 400) ∧
    ((patchUserRoute (fun _ => true) sampleDB (some studentUser) studentUser.id
        roleEscalationBody).2).users.map (fun u => (u.id, u.role)) =
      sampleDB.users.map fun u => (u.id, u.role)) :=
  ⟨by decide,
    non_admin_cannot_change_role (fun _ => true) sampleDB studentUser
      roleEscalationBody (by decide)⟩

/-- C2.  A promotion by an admin of an existing student answers 200, sets
the student's `currentClassId` and `academicYear` to the new values, and
appends exactly one `studentAcademics` row carrying the student, the new
class, the new year and `promotionStatus = "pending"`. -/
theorem promote_student_success (db : DB) (caller stu : User)
    (studentId newClassId : Nat) (year : Int)
    (hadmin : caller.role = Role.admin)
    (hstu : getUser db studentId = some stu)
    (_hrole : stu.role = Role.student) :
    (promoteRoute db (some caller) studentId newClassId year).1 = 200 ∧
    getUser (promoteRoute db (some caller) studentId newClassId year).2 studentId =
      some { stu with currentClassId := some newClassId, academicYear := some year } ∧
    (promoteRoute db (some caller) studentId newClassId year).2.studentAcademics =
      db.studentAcademics ++
        [{ id := db.nextAcademicsId
           studentId := studentId
           classLevelId := newClassId
           academicYear := year
           overallGrade := none
           promotionStatus := some PromotionStatus.pending
           remarks := none }] := by
  have hok : requireAdmin (some caller) = Except.ok caller := by
    simp [requireAdmin, hadmin]
  have h2 : getUser (promoteStudent db studentId newClassId year) studentId =
      some { stu with currentClassId := some newClassId, academicYear := some year } := by
    show ((db.users.map fun u =>
        if u.id == studentId then
          { u with currentClassId := some newClassId, academicYear := some year }
        else u).find? fun u => u.id == studentId) = _
    rw [find_map_ite db.users studentId
      (fun u => { u with currentClassId := some newClassId, academicYear := some year })
      (fun u => rfl)]
    simp only [getUser] at hstu
    rw [hstu]
    rfl
  refine ⟨?_, ?_, ?_⟩ <;> simp only [promoteRoute, hok]
  · exact h2
  · rfl

/-- Witness for C2: the admin promotes student 2 from class 10 to class 20
for year 2025. -/
theorem promote_student_success_witness :
    adminUser.role = Role.admin ∧
    getUser sampleDB 2 = some studentUser ∧
    studentUser.role = Role.student ∧
    ((promoteRoute sampleDB (some adminUser) 2 20 2025).1 = 200 ∧
    getUser (promoteRoute sampleDB (some adminUser) 2 20 2025).2 2 =
      some { studentUser with currentClassId := some 20, academicYear := some 2025 } ∧
    (promoteRoute sampleDB (some adminUser) 2 20 2025).2.studentAcademics =
      sampleDB.studentAcademics ++
        [{ id := sampleDB.nextAcademicsId
           studentId := 2
           classLevelId := 20
           academicYear := 2025
           overallGrade := none
           promotionStatus := some PromotionStatus.pending
           remarks := none }]) :=
  ⟨rfl, rfl, rfl,
    promote_student_success sampleDB adminUser studentUser 2 20 2025 rfl rfl rfl⟩

/-- C1 is violated by the source: `promoteStudent` issues its two writes
with no transaction around them, so each commits on its own.  With student
2 placed in class 10, a promotion to class 20 / year 2025 whose second
write fails reports failure and creates no `studentAcademics` row, yet the
student's `currentClassId` now reads 20 — the first write stays visible. -/
theorem promotion_not_atomic_on_fault :
    (promoteStudentFaulty sampleDB 2 20 2025 true).1 = none ∧
    (promoteStudentFaulty sampleDB 2 20 2025 true).2.studentAcademics = [] ∧
    (getUser sampleDB 2).map User.currentClassId = some (some 10) ∧
    (getUser (promoteStudentFaulty sampleDB 2 20 2025 true).2 2).map
        User.currentClassId = some (some 20) :=
  ⟨rfl, rfl, rfl, rfl⟩

/-- C3 is violated by the source on the 404 half: for an id absent from
the store (42), the PATCH update matches zero rows and the DELETE deletes
zero rows, neither raises an error, and both routes answer 200 — not 404 —
with every stored record untouched (the no-modification half holds). -/
theorem absent_user_update_delete_not_404 :
    patchUserRoute (fun _ => true) sampleDB (some adminUser) 42
        { fullName := some "Nobody" } = (200, sampleDB) ∧
    deleteUserRoute sampleDB (some adminUser) 42 = (200, sampleDB) :=
  ⟨rfl, rfl⟩

end SchoolSync
